import Mathlib

/-!
Shallow embedding of the VM thread execution-context core
(`src/runtime/vm/thread.h`, namespace `dart`, class `Thread`).

Pointers and machine words (`uword`, `Zone*`, `StackResource*`, ...) are
modelled as `Nat`, with `0` playing the role of `NULL`; counters declared
`intptr_t` / `int32_t` are modelled as `Int` (their asserted range
`[0, INT_MAX]` never overflows either C type, so no wraparound modelling is
needed).  The store buffer block is modelled as the list of buffered raw
object references.  Only `thread.h` is in the repository: members defined
out of line in `thread.cc` (EnterIsolate/ExitIsolate, the store-buffer
transfer, ClearReusableHandles) are modelled from the spec, and each such
definition says so in its doc comment.
-/

namespace DartVM

/-- `INT_MAX` of the C `int` type, as used by the `ASSERT`s in
`IncrementNoHandleScopeDepth` / `IncrementNoSafepointScopeDepth`. -/
def INT_MAX : Int := 2147483647

/-- Modelled from the spec: `OSThread::kInvalidThreadId` comes from
`vm/os_thread.h`, which is not in the repository.  It is an arbitrary
distinguished thread-id value; `0` is chosen as its representative. -/
def kInvalidThreadId : Nat := 0

/-- `Thread::State` — the isolate-specific state saved/restored on isolate
exit/re-entry (`thread.h` lines 261-272).  The `#if defined(DEBUG)` fields
(`top_handle_scope`, `no_handle_scope_depth`, `no_safepoint_scope_depth`)
are included, modelling a debug build; the release build simply lacks them. -/
structure State where
  zone : Nat
  top_exit_frame_info : Nat
  top_resource : Nat
  timeline_block : Nat
  long_jump_base : Nat
  top_handle_scope : Nat
  no_handle_scope_depth : Int
  no_safepoint_scope_depth : Int
  deriving Repr, DecidableEq

/-- The all-zero `Thread::State`, i.e. the result of
`memset(&state_, 0, sizeof(state_))` on the record: every pointer becomes
`NULL` (here `0`) and every counter becomes `0`. -/
def zeroState : State :=
  { zone := 0
    top_exit_frame_info := 0
    top_resource := 0
    timeline_block := 0
    long_jump_base := 0
    top_handle_scope := 0
    no_handle_scope_depth := 0
    no_safepoint_scope_depth := 0 }

/-- The `dart::Thread` execution context (`thread.h` lines 119-451), fields
in declaration order (lines 376-414).  The macro-generated cached-constant
members (`CACHED_CONSTANTS_LIST`) are written out; the runtime-entry-point
members come from `vm/runtime_entry_list.h`, which is not in the repository,
so that family of `uword name##_entry_point_` fields is modelled as one
list `runtime_entry_points_`.  The reusable-handle members
(`object##_handle_`) are modelled by the raw reference each handle currently
holds (`0` = empty/null), and the debug-build
`reusable_##object##_handle_scope_active_` flags are `Bool` fields. -/
structure Thread where
  id_ : Nat
  thread_interrupt_callback_ : Nat
  thread_interrupt_data_ : Nat
  isolate_ : Nat
  heap_ : Nat
  state_ : State
  timeline_block_lock_ : Nat
  store_buffer_block_ : List Nat
  log_ : Nat
  vm_tag_ : Nat
  object_null_ : Nat
  bool_true_ : Nat
  bool_false_ : Nat
  update_store_buffer_code_ : Nat
  fix_callers_target_code_ : Nat
  fix_allocation_stub_code_ : Nat
  invoke_dart_code_stub_ : Nat
  update_store_buffer_entry_point_ : Nat
  native_call_wrapper_entry_point_ : Nat
  predefined_symbols_address_ : Nat
  runtime_entry_points_ : List Nat
  AbstractType_handle_ : Nat
  Array_handle_ : Nat
  Class_handle_ : Nat
  Code_handle_ : Nat
  Error_handle_ : Nat
  ExceptionHandlers_handle_ : Nat
  Field_handle_ : Nat
  Function_handle_ : Nat
  GrowableObjectArray_handle_ : Nat
  Instance_handle_ : Nat
  Library_handle_ : Nat
  Object_handle_ : Nat
  PcDescriptors_handle_ : Nat
  String_handle_ : Nat
  TypeArguments_handle_ : Nat
  TypeParameter_handle_ : Nat
  reusable_AbstractType_handle_scope_active_ : Bool
  reusable_Array_handle_scope_active_ : Bool
  reusable_Class_handle_scope_active_ : Bool
  reusable_Code_handle_scope_active_ : Bool
  reusable_Error_handle_scope_active_ : Bool
  reusable_ExceptionHandlers_handle_scope_active_ : Bool
  reusable_Field_handle_scope_active_ : Bool
  reusable_Function_handle_scope_active_ : Bool
  reusable_GrowableObjectArray_handle_scope_active_ : Bool
  reusable_Instance_handle_scope_active_ : Bool
  reusable_Library_handle_scope_active_ : Bool
  reusable_Object_handle_scope_active_ : Bool
  reusable_PcDescriptors_handle_scope_active_ : Bool
  reusable_String_handle_scope_active_ : Bool
  reusable_TypeArguments_handle_scope_active_ : Bool
  reusable_TypeParameter_handle_scope_active_ : Bool
  reusable_handles_ : Nat
  deriving Repr, DecidableEq

namespace Thread

/-- `uword vm_tag() const { return vm_tag_; }` (`thread.h` line 320). -/
def vm_tag (t : Thread) : Nat := t.vm_tag_

/-- `void set_vm_tag(uword tag) { vm_tag_ = tag; }` (`thread.h` line 323). -/
def set_vm_tag (t : Thread) (tag : Nat) : Thread := { t with vm_tag_ := tag }

/-- `ThreadId id() const { ASSERT(id_ != OSThread::kInvalidThreadId); return id_; }`
(`thread.h` lines 330-333).  A failed `ASSERT` is modelled as `none`. -/
def id (t : Thread) : Option Nat :=
  if t.id_ = kInvalidThreadId then none else some t.id_

/-- `Zone* zone() const { return state_.zone; }` (`thread.h` line 159). -/
def zone (t : Thread) : Nat := t.state_.zone

/-- `void set_zone(Zone* zone) { state_.zone = zone; }` (`thread.h` line 428). -/
def set_zone (t : Thread) (z : Nat) : Thread :=
  { t with state_ := { t.state_ with zone := z } }

/-- `uword top_exit_frame_info() const` (`thread.h` line 184). -/
def top_exit_frame_info (t : Thread) : Nat := t.state_.top_exit_frame_info

/-- `void set_top_exit_frame_info(uword ...)` (`thread.h` line 432). -/
def set_top_exit_frame_info (t : Thread) (v : Nat) : Thread :=
  { t with state_ := { t.state_ with top_exit_frame_info := v } }

/-- `StackResource* top_resource() const` (`thread.h` line 189). -/
def top_resource (t : Thread) : Nat := t.state_.top_resource

/-- `void set_top_resource(StackResource* value)` (`thread.h` line 190). -/
def set_top_resource (t : Thread) (v : Nat) : Thread :=
  { t with state_ := { t.state_ with top_resource := v } }

/-- `TimelineEventBlock* timeline_block() const` (`thread.h` line 304). -/
def timeline_block (t : Thread) : Nat := t.state_.timeline_block

/-- `void set_timeline_block(TimelineEventBlock* block)` (`thread.h` line 309). -/
def set_timeline_block (t : Thread) (v : Nat) : Thread :=
  { t with state_ := { t.state_ with timeline_block := v } }

/-- `LongJumpScope* long_jump_base() const` (`thread.h` line 315). -/
def long_jump_base (t : Thread) : Nat := t.state_.long_jump_base

/-- `void set_long_jump_base(LongJumpScope* value)` (`thread.h` line 316). -/
def set_long_jump_base (t : Thread) (v : Nat) : Thread :=
  { t with state_ := { t.state_ with long_jump_base := v } }

/-- DEBUG build `int32_t no_handle_scope_depth() const`
(`thread.h` lines 201-207): returns `state_.no_handle_scope_depth`. -/
def no_handle_scope_depth (t : Thread) : Int := t.state_.no_handle_scope_depth

/-- DEBUG build `void IncrementNoHandleScopeDepth()` (`thread.h` lines
209-214): `ASSERT(state_.no_handle_scope_depth < INT_MAX)` then `+= 1`.
A failed `ASSERT` (fatal in a checked build) is modelled as `none`. -/
def IncrementNoHandleScopeDepth (t : Thread) : Option Thread :=
  if t.state_.no_handle_scope_depth < INT_MAX then
    some { t with state_ :=
      { t.state_ with no_handle_scope_depth := t.state_.no_handle_scope_depth + 1 } }
  else none

/-- DEBUG build `void DecrementNoHandleScopeDepth()` (`thread.h` lines
216-221): `ASSERT(state_.no_handle_scope_depth > 0)` then `-= 1`. -/
def DecrementNoHandleScopeDepth (t : Thread) : Option Thread :=
  if t.state_.no_handle_scope_depth > 0 then
    some { t with state_ :=
      { t.state_ with no_handle_scope_depth := t.state_.no_handle_scope_depth - 1 } }
  else none

/-- DEBUG build `HandleScope* top_handle_scope() const` (`thread.h` lines
223-229): returns `state_.top_handle_scope`. -/
def top_handle_scope (t : Thread) : Nat := t.state_.top_handle_scope

/-- DEBUG build `void set_top_handle_scope(HandleScope*)` (`thread.h` lines
231-235). -/
def set_top_handle_scope (t : Thread) (hs : Nat) : Thread :=
  { t with state_ := { t.state_ with top_handle_scope := hs } }

/-- DEBUG build `int32_t no_safepoint_scope_depth() const`
(`thread.h` lines 237-243). -/
def no_safepoint_scope_depth (t : Thread) : Int := t.state_.no_safepoint_scope_depth

/-- DEBUG build `void IncrementNoSafepointScopeDepth()` (`thread.h` lines
245-250): `ASSERT(state_.no_safepoint_scope_depth < INT_MAX)` then `+= 1`. -/
def IncrementNoSafepointScopeDepth (t : Thread) : Option Thread :=
  if t.state_.no_safepoint_scope_depth < INT_MAX then
    some { t with state_ :=
      { t.state_ with no_safepoint_scope_depth := t.state_.no_safepoint_scope_depth + 1 } }
  else none

/-- DEBUG build `void DecrementNoSafepointScopeDepth()` (`thread.h` lines
252-257): `ASSERT(state_.no_safepoint_scope_depth > 0)` then `-= 1`. -/
def DecrementNoSafepointScopeDepth (t : Thread) : Option Thread :=
  if t.state_.no_safepoint_scope_depth > 0 then
    some { t with state_ :=
      { t.state_ with no_safepoint_scope_depth := t.state_.no_safepoint_scope_depth - 1 } }
  else none

/-- `void ClearState() { memset(&state_, 0, sizeof(state_)); }`
(`thread.h` lines 420-422): zeroes the whole `State` record in place and
touches nothing else. -/
def ClearState (t : Thread) : Thread := { t with state_ := zeroState }

/-- DEBUG build `bool IsAnyReusableHandleScopeActive() const` (`thread.h`
lines 351-357): the `IS_REUSABLE_HANDLE_SCOPE_ACTIVE` macro expands, for
each kind of `REUSABLE_HANDLE_LIST` in order, to
`if (reusable_<kind>_handle_scope_active_) return true;`, then `return false;`. -/
def IsAnyReusableHandleScopeActive (t : Thread) : Bool :=
  if t.reusable_AbstractType_handle_scope_active_ then true
  else if t.reusable_Array_handle_scope_active_ then true
  else if t.reusable_Class_handle_scope_active_ then true
  else if t.reusable_Code_handle_scope_active_ then true
  else if t.reusable_Error_handle_scope_active_ then true
  else if t.reusable_ExceptionHandlers_handle_scope_active_ then true
  else if t.reusable_Field_handle_scope_active_ then true
  else if t.reusable_Function_handle_scope_active_ then true
  else if t.reusable_GrowableObjectArray_handle_scope_active_ then true
  else if t.reusable_Instance_handle_scope_active_ then true
  else if t.reusable_Library_handle_scope_active_ then true
  else if t.reusable_Object_handle_scope_active_ then true
  else if t.reusable_PcDescriptors_handle_scope_active_ then true
  else if t.reusable_String_handle_scope_active_ then true
  else if t.reusable_TypeArguments_handle_scope_active_ then true
  else if t.reusable_TypeParameter_handle_scope_active_ then true
  else false

/-- Modelled from the spec: `void Thread::ClearReusableHandles()` is defined
in `thread.cc`, which is not in the repository.  Spec 4.5: "resets every
pooled handle to an empty/null reference"; each `object##_handle_` slot of
`REUSABLE_HANDLE_LIST` is set to the empty/null reference (`0`). -/
def ClearReusableHandles (t : Thread) : Thread :=
  { t with
    AbstractType_handle_ := 0
    Array_handle_ := 0
    Class_handle_ := 0
    Code_handle_ := 0
    Error_handle_ := 0
    ExceptionHandlers_handle_ := 0
    Field_handle_ := 0
    Function_handle_ := 0
    GrowableObjectArray_handle_ := 0
    Instance_handle_ := 0
    Library_handle_ := 0
    Object_handle_ := 0
    PcDescriptors_handle_ := 0
    String_handle_ := 0
    TypeArguments_handle_ := 0
    TypeParameter_handle_ := 0 }

end Thread

/-!
Release-build variants.  In a non-DEBUG build the `#if defined(DEBUG)`
bodies are compiled out: the getters' `#else` branches are `return 0;` and
the mutators have empty bodies (`thread.h` lines 201-257 and 231-235).
-/

namespace Release

/-- Release `int32_t no_handle_scope_depth() const`: `return 0;`
(`thread.h` line 205). -/
def no_handle_scope_depth (_ : Thread) : Int := 0

/-- Release `void IncrementNoHandleScopeDepth()`: empty body. -/
def IncrementNoHandleScopeDepth (t : Thread) : Thread := t

/-- Release `void DecrementNoHandleScopeDepth()`: empty body. -/
def DecrementNoHandleScopeDepth (t : Thread) : Thread := t

/-- Release `HandleScope* top_handle_scope() const`: `return 0;`
(`thread.h` line 227). -/
def top_handle_scope (_ : Thread) : Nat := 0

/-- Release `void set_top_handle_scope(HandleScope*)`: empty body. -/
def set_top_handle_scope (t : Thread) (_ : Nat) : Thread := t

/-- Release `int32_t no_safepoint_scope_depth() const`: `return 0;`
(`thread.h` line 241). -/
def no_safepoint_scope_depth (_ : Thread) : Int := 0

/-- Release `void IncrementNoSafepointScopeDepth()`: empty body. -/
def IncrementNoSafepointScopeDepth (t : Thread) : Thread := t

/-- Release `void DecrementNoSafepointScopeDepth()`: empty body. -/
def DecrementNoSafepointScopeDepth (t : Thread) : Thread := t

end Release

end DartVM

namespace DartVM

/-- C10 helper: the sample thread used by witnesses, with every field at an
arbitrary concrete value. -/
def sampleThread : Thread :=
  { id_ := 7
    thread_interrupt_callback_ := 11
    thread_interrupt_data_ := 12
    isolate_ := 13
    heap_ := 14
    state_ :=
      { zone := 21, top_exit_frame_info := 22, top_resource := 23
        timeline_block := 24, long_jump_base := 25, top_handle_scope := 26
        no_handle_scope_depth := 2, no_safepoint_scope_depth := 1 }
    timeline_block_lock_ := 31
    store_buffer_block_ := [41, 42]
    log_ := 51
    vm_tag_ := 61
    object_null_ := 71
    bool_true_ := 72
    bool_false_ := 73
    update_store_buffer_code_ := 74
    fix_callers_target_code_ := 75
    fix_allocation_stub_code_ := 76
    invoke_dart_code_stub_ := 77
    update_store_buffer_entry_point_ := 81
    native_call_wrapper_entry_point_ := 82
    predefined_symbols_address_ := 83
    runtime_entry_points_ := [91, 92, 93]
    AbstractType_handle_ := 101
    Array_handle_ := 102
    Class_handle_ := 103
    Code_handle_ := 104
    Error_handle_ := 105
    ExceptionHandlers_handle_ := 106
    Field_handle_ := 107
    Function_handle_ := 108
    GrowableObjectArray_handle_ := 109
    Instance_handle_ := 110
    Library_handle_ := 111
    Object_handle_ := 112
    PcDescriptors_handle_ := 113
    String_handle_ := 114
    TypeArguments_handle_ := 115
    TypeParameter_handle_ := 116
    reusable_AbstractType_handle_scope_active_ := false
    reusable_Array_handle_scope_active_ := true
    reusable_Class_handle_scope_active_ := false
    reusable_Code_handle_scope_active_ := false
    reusable_Error_handle_scope_active_ := false
    reusable_ExceptionHandlers_handle_scope_active_ := false
    reusable_Field_handle_scope_active_ := false
    reusable_Function_handle_scope_active_ := false
    reusable_GrowableObjectArray_handle_scope_active_ := false
    reusable_Instance_handle_scope_active_ := false
    reusable_Library_handle_scope_active_ := false
    reusable_Object_handle_scope_active_ := false
    reusable_PcDescriptors_handle_scope_active_ := false
    reusable_String_handle_scope_active_ := false
    reusable_TypeArguments_handle_scope_active_ := false
    reusable_TypeParameter_handle_scope_active_ := false
    reusable_handles_ := 121 }

/-!
Isolate attach/detach protocol.  `Thread::EnterIsolate` / `Thread::ExitIsolate`
are only declared in `thread.h` (lines 129-132); their bodies live in
`thread.cc`, which is not in the repository, so the protocol is modelled
from spec 4.2.
-/

/-- The per-context attach states named by spec 4.2:
`Detached`, `AttachedAsMutator`, `AttachedAsHelper`. -/
inductive ExecState
  | Detached
  | AttachedAsMutator
  | AttachedAsHelper
  deriving Repr, DecidableEq

/-- A call in a sequence of `EnterIsolate` / `ExitIsolate` operations on one
execution context. -/
inductive IsolateOp
  | enterIsolate
  | exitIsolate
  deriving Repr, DecidableEq

/-- Modelled from the spec: bodies of `Thread::EnterIsolate` /
`Thread::ExitIsolate` are in the missing `thread.cc`.  Spec 4.2:
"`EnterIsolate(isolate)` transitions `Detached → AttachedAsMutator`",
"`ExitIsolate()` reverses this", and "re-entering while already attached,
or exiting while detached, is a contract violation".  A contract violation
(fatal in a checked build) is modelled as `none`. -/
def isolateStep : ExecState → IsolateOp → Option ExecState
  | .Detached, .enterIsolate => some .AttachedAsMutator
  | .AttachedAsMutator, .enterIsolate => none
  | .AttachedAsHelper, .enterIsolate => none
  | .AttachedAsMutator, .exitIsolate => some .Detached
  | .Detached, .exitIsolate => none
  | .AttachedAsHelper, .exitIsolate => none

/-- Runs a sequence of `EnterIsolate`/`ExitIsolate` calls; `none` as soon as
one call violates the contract. -/
def runIsolateOps : ExecState → List IsolateOp → Option ExecState
  | s, [] => some s
  | s, op :: ops =>
    match isolateStep s op with
    | none => none
    | some s' => runIsolateOps s' ops

/-- Number of `EnterIsolate` calls in a sequence. -/
def countEnters : List IsolateOp → Nat
  | [] => 0
  | .enterIsolate :: ops => countEnters ops + 1
  | .exitIsolate :: ops => countEnters ops

/-- Number of `ExitIsolate` calls in a sequence. -/
def countExits : List IsolateOp → Nat
  | [] => 0
  | .enterIsolate :: ops => countExits ops
  | .exitIsolate :: ops => countExits ops + 1

/-- `1` iff the state is `AttachedAsMutator`; the balance contributed by a
state to the enter/exit count bookkeeping. -/
def attachedBal : ExecState → Nat
  | .AttachedAsMutator => 1
  | _ => 0

/-!
Write-barrier buffer coordination.  `Thread::StoreBufferAddObject` and
`Thread::StoreBufferBlockProcess` are declared at `thread.h` lines 172-182;
their bodies live in the missing `thread.cc`, and
`StoreBuffer::ThresholdPolicy` in the missing `vm/store_buffer.h`, so both
are modelled from spec 4.3.
-/

/-- Modelled from the spec: the isolate collaborator exposes "a global
write-barrier record sink" (spec 6); only that record set is modelled. -/
structure Isolate where
  store_buffer_records_ : List Nat
  deriving Repr, DecidableEq

/-- Modelled from the spec: `StoreBuffer::ThresholdPolicy` is declared in
the missing `vm/store_buffer.h`; spec 4.3 names the eager variant
`kCheckThreshold` and an unconditional one. -/
inductive ThresholdPolicy
  | kCheckThreshold
  | kIgnoreThreshold
  deriving Repr, DecidableEq

/-- Modelled from the spec: the "configurable threshold" of spec 4.3.  The
concrete value is arbitrary; `3` matches the spec-8 scenario. -/
def kStoreBufferThreshold : Nat := 3

/-- Modelled from the spec: one insertion into the isolate-global
write-barrier record set (spec 6: "a global write-barrier record sink";
spec 8: "every added reference appears exactly once in the isolate-global
record set post-flush").  A record set holds each reference at most once,
so inserting an already-present reference is a no-op. -/
def recordSetInsert (records : List Nat) (obj : Nat) : List Nat :=
  if obj ∈ records then records else records ++ [obj]

/-- Modelled from the spec: flushing "transfers entries into the
isolate-global record set and resets the local buffer to empty"
(spec 4.3); each buffered entry is inserted into the record set. -/
def storeBufferFlush : Thread × Isolate → Thread × Isolate
  | (t, iso) =>
    ({ t with store_buffer_block_ := [] },
     { iso with
        store_buffer_records_ :=
          t.store_buffer_block_.foldl recordSetInsert iso.store_buffer_records_ })

/-- Modelled from the spec: `Thread::StoreBufferBlockProcess(policy)` is
defined in the missing `thread.cc`.  Spec 4.3: "flushes the buffer when it
exceeds a configurable threshold, either eagerly (`kCheckThreshold`) or
unconditionally". -/
def StoreBufferBlockProcess (policy : ThresholdPolicy) (s : Thread × Isolate) :
    Thread × Isolate :=
  match policy with
  | .kIgnoreThreshold => storeBufferFlush s
  | .kCheckThreshold =>
    if s.1.store_buffer_block_.length > kStoreBufferThreshold then storeBufferFlush s
    else s

/-- Modelled from the spec: `Thread::StoreBufferAddObject(obj)` is defined
in the missing `thread.cc`.  Spec 4.3: appends the reference to the
thread-local buffer; a flush "is triggered automatically once the threshold
is exceeded" (spec 8 scenario). -/
def StoreBufferAddObject (obj : Nat) (s : Thread × Isolate) : Thread × Isolate :=
  StoreBufferBlockProcess .kCheckThreshold
    ({ s.1 with store_buffer_block_ := s.1.store_buffer_block_ ++ [obj] }, s.2)

/-- Runs a sequence of `StoreBufferAddObject` calls. -/
def runStoreBufferAdds (s : Thread × Isolate) (objs : List Nat) : Thread × Isolate :=
  objs.foldl (fun st obj => StoreBufferAddObject obj st) s

/-- A reference is pending in the system: it is in the isolate-global
record set or in the thread-local block. -/
def sbHolds (s : Thread × Isolate) (o : Nat) : Prop :=
  o ∈ s.2.store_buffer_records_ ∨ o ∈ s.1.store_buffer_block_

/-!
Debug-build scope-depth counters (claim C6) and whole-thread operation
sequences (claim C9).
-/

/-- One call on the debug-only nesting counters (`thread.h` lines 209-257). -/
inductive DepthOp
  | incHandle
  | decHandle
  | incSafepoint
  | decSafepoint
  deriving Repr, DecidableEq

/-- Dispatches a depth-counter call; a failed `ASSERT` is `none`. -/
def applyDepthOp (t : Thread) : DepthOp → Option Thread
  | .incHandle => t.IncrementNoHandleScopeDepth
  | .decHandle => t.DecrementNoHandleScopeDepth
  | .incSafepoint => t.IncrementNoSafepointScopeDepth
  | .decSafepoint => t.DecrementNoSafepointScopeDepth

/-- Runs a sequence of depth-counter calls; `none` as soon as one `ASSERT`
fails. -/
def runDepthOps : Thread → List DepthOp → Option Thread
  | t, [] => some t
  | t, op :: ops =>
    match applyDepthOp t op with
    | none => none
    | some t' => runDepthOps t' ops

/-- Number of `IncrementNoHandleScopeDepth` calls in a sequence. -/
def countIncHandle : List DepthOp → Nat
  | [] => 0
  | .incHandle :: ops => countIncHandle ops + 1
  | _ :: ops => countIncHandle ops

/-- Number of `DecrementNoHandleScopeDepth` calls in a sequence. -/
def countDecHandle : List DepthOp → Nat
  | [] => 0
  | .decHandle :: ops => countDecHandle ops + 1
  | _ :: ops => countDecHandle ops

/-- Number of `IncrementNoSafepointScopeDepth` calls in a sequence. -/
def countIncSafepoint : List DepthOp → Nat
  | [] => 0
  | .incSafepoint :: ops => countIncSafepoint ops + 1
  | _ :: ops => countIncSafepoint ops

/-- Number of `DecrementNoSafepointScopeDepth` calls in a sequence. -/
def countDecSafepoint : List DepthOp → Nat
  | [] => 0
  | .decSafepoint :: ops => countDecSafepoint ops + 1
  | _ :: ops => countDecSafepoint ops

/-- One mutating operation on a `Thread` among those embedded in this file
(claim C9 quantifies over sequences of operations). -/
inductive ThreadOp
  | setVmTag (tag : Nat)
  | setZone (v : Nat)
  | setTopExitFrameInfo (v : Nat)
  | setTopResource (v : Nat)
  | setTimelineBlock (v : Nat)
  | setLongJumpBase (v : Nat)
  | setTopHandleScope (v : Nat)
  | incNoHandleScopeDepth
  | decNoHandleScopeDepth
  | incNoSafepointScopeDepth
  | decNoSafepointScopeDepth
  | clearState
  | clearReusableHandles
  | storeBufferAdd (obj : Nat) (iso : Isolate)
  deriving Repr

/-- Dispatches one `Thread` operation; a failed `ASSERT` is `none`. -/
def applyThreadOp (t : Thread) : ThreadOp → Option Thread
  | .setVmTag v => some (t.set_vm_tag v)
  | .setZone v => some (t.set_zone v)
  | .setTopExitFrameInfo v => some (t.set_top_exit_frame_info v)
  | .setTopResource v => some (t.set_top_resource v)
  | .setTimelineBlock v => some (t.set_timeline_block v)
  | .setLongJumpBase v => some (t.set_long_jump_base v)
  | .setTopHandleScope v => some (t.set_top_handle_scope v)
  | .incNoHandleScopeDepth => t.IncrementNoHandleScopeDepth
  | .decNoHandleScopeDepth => t.DecrementNoHandleScopeDepth
  | .incNoSafepointScopeDepth => t.IncrementNoSafepointScopeDepth
  | .decNoSafepointScopeDepth => t.DecrementNoSafepointScopeDepth
  | .clearState => some t.ClearState
  | .clearReusableHandles => some t.ClearReusableHandles
  | .storeBufferAdd obj iso => some (StoreBufferAddObject obj (t, iso)).1

/-- Runs a sequence of `Thread` operations. -/
def runThreadOps : Thread → List ThreadOp → Option Thread
  | t, [] => some t
  | t, op :: ops =>
    match applyThreadOp t op with
    | none => none
    | some t' => runThreadOps t' ops

/-!
Static field-offset accessors (claim C3).  Each is a C++ `static` method
returning `OFFSET_OF(Thread, member)` — a compile-time constant of the
fixed field layout (`thread.h` lines 163-199, 274-293, 326-328).  The
embedding gives every accessor an explicit "point of the process run"
argument (a `Nat`) which the source reads nothing from, so that the
stability claim — two calls in one run agree — is about the code, not a
notational accident.  Byte sizes model a 64-bit build; the claim only
concerns stability, not the concrete values.
-/

/-- The directly declared data members of `Thread`, in declaration order
(`thread.h` lines 376-389). -/
inductive ThreadMember
  | id_
  | thread_interrupt_callback_
  | thread_interrupt_data_
  | isolate_
  | heap_
  | state_
  | timeline_block_lock_
  | store_buffer_block_
  | log_
  | vm_tag_
  | object_null_
  | bool_true_
  | bool_false_
  | update_store_buffer_code_
  | fix_callers_target_code_
  | fix_allocation_stub_code_
  | invoke_dart_code_stub_
  | update_store_buffer_entry_point_
  | native_call_wrapper_entry_point_
  | predefined_symbols_address_
  deriving Repr, DecidableEq

/-- Declaration order of the `Thread` data members (`thread.h` lines
376-389 and the `CACHED_CONSTANTS_LIST(DECLARE_MEMBERS)` expansion). -/
def threadMemberOrder : List ThreadMember :=
  [.id_, .thread_interrupt_callback_, .thread_interrupt_data_, .isolate_, .heap_,
   .state_, .timeline_block_lock_, .store_buffer_block_, .log_, .vm_tag_,
   .object_null_, .bool_true_, .bool_false_, .update_store_buffer_code_,
   .fix_callers_target_code_, .fix_allocation_stub_code_, .invoke_dart_code_stub_,
   .update_store_buffer_entry_point_, .native_call_wrapper_entry_point_,
   .predefined_symbols_address_]

/-- Byte size of each member on the modelled 64-bit build: pointers and
words take 8 bytes; the embedded `State` record takes 64 (seven words plus
a padded `int32_t`). -/
def memberSize : ThreadMember → Nat
  | .state_ => 64
  | _ => 8

/-- `OFFSET_OF(Thread, m)`: the byte offset of member `m`, the sum of the
sizes of the members declared before it. -/
def OFFSET_OF (m : ThreadMember) : Nat :=
  ((threadMemberOrder.takeWhile (fun x => !(x == m))).map memberSize).sum

/-- The members of `Thread::State`, in declaration order (`thread.h` lines
261-272). -/
inductive StateMember
  | zone
  | top_exit_frame_info
  | top_resource
  | timeline_block
  | long_jump_base
  | top_handle_scope
  | no_handle_scope_depth
  | no_safepoint_scope_depth
  deriving Repr, DecidableEq

/-- Declaration order of the `Thread::State` members. -/
def stateMemberOrder : List StateMember :=
  [.zone, .top_exit_frame_info, .top_resource, .timeline_block, .long_jump_base,
   .top_handle_scope, .no_handle_scope_depth, .no_safepoint_scope_depth]

/-- `OFFSET_OF(State, m)`: every `State` member is one 8-byte word in the
modelled layout. -/
def OFFSET_OF_State (m : StateMember) : Nat :=
  ((stateMemberOrder.takeWhile (fun x => !(x == m))).map (fun _ => 8)).sum

/-- `static intptr_t isolate_offset()` (`thread.h` lines 163-165). -/
def isolate_offset (_ : Nat) : Nat := OFFSET_OF .isolate_

/-- `static intptr_t store_buffer_block_offset()` (`thread.h` lines 180-182). -/
def store_buffer_block_offset (_ : Nat) : Nat := OFFSET_OF .store_buffer_block_

/-- `static intptr_t top_exit_frame_info_offset()` (`thread.h` lines
185-187): `OFFSET_OF(Thread, state_) + OFFSET_OF(State, top_exit_frame_info)`. -/
def top_exit_frame_info_offset (_ : Nat) : Nat :=
  OFFSET_OF .state_ + OFFSET_OF_State .top_exit_frame_info

/-- `static intptr_t top_resource_offset()` (`thread.h` lines 193-195). -/
def top_resource_offset (_ : Nat) : Nat :=
  OFFSET_OF .state_ + OFFSET_OF_State .top_resource

/-- `static intptr_t heap_offset()` (`thread.h` lines 197-199). -/
def heap_offset (_ : Nat) : Nat := OFFSET_OF .heap_

/-- `static intptr_t vm_tag_offset()` (`thread.h` lines 326-328). -/
def vm_tag_offset (_ : Nat) : Nat := OFFSET_OF .vm_tag_

/-- `DEFINE_OFFSET_METHOD` expansion for `object_null_` (`thread.h` lines
274-279). -/
def object_null_offset (_ : Nat) : Nat := OFFSET_OF .object_null_

/-- `DEFINE_OFFSET_METHOD` expansion for `bool_true_`. -/
def bool_true_offset (_ : Nat) : Nat := OFFSET_OF .bool_true_

/-- `DEFINE_OFFSET_METHOD` expansion for `bool_false_`. -/
def bool_false_offset (_ : Nat) : Nat := OFFSET_OF .bool_false_

/-- `DEFINE_OFFSET_METHOD` expansion for `update_store_buffer_code_`. -/
def update_store_buffer_code_offset (_ : Nat) : Nat :=
  OFFSET_OF .update_store_buffer_code_

/-- `DEFINE_OFFSET_METHOD` expansion for `fix_callers_target_code_`. -/
def fix_callers_target_code_offset (_ : Nat) : Nat :=
  OFFSET_OF .fix_callers_target_code_

/-- `DEFINE_OFFSET_METHOD` expansion for `fix_allocation_stub_code_`. -/
def fix_allocation_stub_code_offset (_ : Nat) : Nat :=
  OFFSET_OF .fix_allocation_stub_code_

/-- `DEFINE_OFFSET_METHOD` expansion for `invoke_dart_code_stub_`. -/
def invoke_dart_code_stub_offset (_ : Nat) : Nat :=
  OFFSET_OF .invoke_dart_code_stub_

/-- `DEFINE_OFFSET_METHOD` expansion for `update_store_buffer_entry_point_`. -/
def update_store_buffer_entry_point_offset (_ : Nat) : Nat :=
  OFFSET_OF .update_store_buffer_entry_point_

/-- `DEFINE_OFFSET_METHOD` expansion for `native_call_wrapper_entry_point_`. -/
def native_call_wrapper_entry_point_offset (_ : Nat) : Nat :=
  OFFSET_OF .native_call_wrapper_entry_point_

/-- `DEFINE_OFFSET_METHOD` expansion for `predefined_symbols_address_`. -/
def predefined_symbols_address_offset (_ : Nat) : Nat :=
  OFFSET_OF .predefined_symbols_address_

/-- First byte past the cached-constants region, where the
`RUNTIME_ENTRY_LIST` / `LEAF_RUNTIME_ENTRY_LIST` `uword name##_entry_point_`
members start. -/
def runtimeEntriesBase : Nat := OFFSET_OF .predefined_symbols_address_ + 8

/-- The `name##_entry_point_offset()` family (`thread.h` lines 281-293):
`vm/runtime_entry_list.h` is not in the repository, so the family is
modelled generically — the accessor for the `n`-th runtime entry returns
the fixed offset of its `uword` slot. -/
def runtime_entry_point_offset (n : Nat) (_ : Nat) : Nat :=
  runtimeEntriesBase + 8 * n

/-- C10: `set_vm_tag(t)` stores `t` unconditionally (no monotonicity or
validity restriction), a subsequent `vm_tag()` returns it, and no `Thread`
field other than `vm_tag_` is modified. -/
theorem set_vm_tag_stores_tag_and_changes_nothing_else
    (t : Thread) (tag : Nat) :
    (t.set_vm_tag tag).vm_tag_ = tag ∧
    (t.set_vm_tag tag).vm_tag = tag ∧
    (t.set_vm_tag tag).id_ = t.id_ ∧
    (t.set_vm_tag tag).thread_interrupt_callback_ = t.thread_interrupt_callback_ ∧
    (t.set_vm_tag tag).thread_interrupt_data_ = t.thread_interrupt_data_ ∧
    (t.set_vm_tag tag).isolate_ = t.isolate_ ∧
    (t.set_vm_tag tag).heap_ = t.heap_ ∧
    (t.set_vm_tag tag).state_ = t.state_ ∧
    (t.set_vm_tag tag).timeline_block_lock_ = t.timeline_block_lock_ ∧
    (t.set_vm_tag tag).store_buffer_block_ = t.store_buffer_block_ ∧
    (t.set_vm_tag tag).log_ = t.log_ ∧
    (t.set_vm_tag tag).object_null_ = t.object_null_ ∧
    (t.set_vm_tag tag).bool_true_ = t.bool_true_ ∧
    (t.set_vm_tag tag).bool_false_ = t.bool_false_ ∧
    (t.set_vm_tag tag).update_store_buffer_code_ = t.update_store_buffer_code_ ∧
    (t.set_vm_tag tag).fix_callers_target_code_ = t.fix_callers_target_code_ ∧
    (t.set_vm_tag tag).fix_allocation_stub_code_ = t.fix_allocation_stub_code_ ∧
    (t.set_vm_tag tag).invoke_dart_code_stub_ = t.invoke_dart_code_stub_ ∧
    (t.set_vm_tag tag).update_store_buffer_entry_point_ = t.update_store_buffer_entry_point_ ∧
    (t.set_vm_tag tag).native_call_wrapper_entry_point_ = t.native_call_wrapper_entry_point_ ∧
    (t.set_vm_tag tag).predefined_symbols_address_ = t.predefined_symbols_address_ ∧
    (t.set_vm_tag tag).runtime_entry_points_ = t.runtime_entry_points_ ∧
    (t.set_vm_tag tag).AbstractType_handle_ = t.AbstractType_handle_ ∧
    (t.set_vm_tag tag).Array_handle_ = t.Array_handle_ ∧
    (t.set_vm_tag tag).Class_handle_ = t.Class_handle_ ∧
    (t.set_vm_tag tag).Code_handle_ = t.Code_handle_ ∧
    (t.set_vm_tag tag).Error_handle_ = t.Error_handle_ ∧
    (t.set_vm_tag tag).ExceptionHandlers_handle_ = t.ExceptionHandlers_handle_ ∧
    (t.set_vm_tag tag).Field_handle_ = t.Field_handle_ ∧
    (t.set_vm_tag tag).Function_handle_ = t.Function_handle_ ∧
    (t.set_vm_tag tag).GrowableObjectArray_handle_ = t.GrowableObjectArray_handle_ ∧
    (t.set_vm_tag tag).Instance_handle_ = t.Instance_handle_ ∧
    (t.set_vm_tag tag).Library_handle_ = t.Library_handle_ ∧
    (t.set_vm_tag tag).Object_handle_ = t.Object_handle_ ∧
    (t.set_vm_tag tag).PcDescriptors_handle_ = t.PcDescriptors_handle_ ∧
    (t.set_vm_tag tag).String_handle_ = t.String_handle_ ∧
    (t.set_vm_tag tag).TypeArguments_handle_ = t.TypeArguments_handle_ ∧
    (t.set_vm_tag tag).TypeParameter_handle_ = t.TypeParameter_handle_ ∧
    (t.set_vm_tag tag).reusable_AbstractType_handle_scope_active_ = t.reusable_AbstractType_handle_scope_active_ ∧
    (t.set_vm_tag tag).reusable_Array_handle_scope_active_ = t.reusable_Array_handle_scope_active_ ∧
    (t.set_vm_tag tag).reusable_Class_handle_scope_active_ = t.reusable_Class_handle_scope_active_ ∧
    (t.set_vm_tag tag).reusable_Code_handle_scope_active_ = t.reusable_Code_handle_scope_active_ ∧
    (t.set_vm_tag tag).reusable_Error_handle_scope_active_ = t.reusable_Error_handle_scope_active_ ∧
    (t.set_vm_tag tag).reusable_ExceptionHandlers_handle_scope_active_ = t.reusable_ExceptionHandlers_handle_scope_active_ ∧
    (t.set_vm_tag tag).reusable_Field_handle_scope_active_ = t.reusable_Field_handle_scope_active_ ∧
    (t.set_vm_tag tag).reusable_Function_handle_scope_active_ = t.reusable_Function_handle_scope_active_ ∧
    (t.set_vm_tag tag).reusable_GrowableObjectArray_handle_scope_active_ = t.reusable_GrowableObjectArray_handle_scope_active_ ∧
    (t.set_vm_tag tag).reusable_Instance_handle_scope_active_ = t.reusable_Instance_handle_scope_active_ ∧
    (t.set_vm_tag tag).reusable_Library_handle_scope_active_ = t.reusable_Library_handle_scope_active_ ∧
    (t.set_vm_tag tag).reusable_Object_handle_scope_active_ = t.reusable_Object_handle_scope_active_ ∧
    (t.set_vm_tag tag).reusable_PcDescriptors_handle_scope_active_ = t.reusable_PcDescriptors_handle_scope_active_ ∧
    (t.set_vm_tag tag).reusable_String_handle_scope_active_ = t.reusable_String_handle_scope_active_ ∧
    (t.set_vm_tag tag).reusable_TypeArguments_handle_scope_active_ = t.reusable_TypeArguments_handle_scope_active_ ∧
    (t.set_vm_tag tag).reusable_TypeParameter_handle_scope_active_ = t.reusable_TypeParameter_handle_scope_active_ ∧
    (t.set_vm_tag tag).reusable_handles_ = t.reusable_handles_ := by
  refine ⟨rfl, rfl, ?_⟩
  repeat' apply And.intro
  all_goals rfl

/-- C7: in a non-debug (release) build the debug-only machinery is compiled
out: `no_handle_scope_depth()`, `no_safepoint_scope_depth()` and
`top_handle_scope()` always return `0`, and the increment/decrement
operations and `set_top_handle_scope` leave the `Thread` state completely
unchanged. -/
theorem release_build_debug_machinery_compiled_out (t : Thread) (hs : Nat) :
    Release.no_handle_scope_depth t = 0 ∧
    Release.no_safepoint_scope_depth t = 0 ∧
    Release.top_handle_scope t = 0 ∧
    Release.IncrementNoHandleScopeDepth t = t ∧
    Release.DecrementNoHandleScopeDepth t = t ∧
    Release.IncrementNoSafepointScopeDepth t = t ∧
    Release.DecrementNoSafepointScopeDepth t = t ∧
    Release.set_top_handle_scope t hs = t :=
  ⟨rfl, rfl, rfl, rfl, rfl, rfl, rfl, rfl⟩

/-- Helper: an `if (flag) return true; <rest>` step is a short-circuit
disjunction. -/
theorem if_return_true_eq_or (c b : Bool) : (if c = true then true else b) = (c || b) := by
  cases c <;> simp

/-- C5: in debug builds `IsAnyReusableHandleScopeActive()` returns `true`
iff at least one per-kind `reusable_<kind>_handle_scope_active_` flag is
set, for every state of the flags. -/
theorem IsAnyReusableHandleScopeActive_iff_some_flag (t : Thread) :
    t.IsAnyReusableHandleScopeActive = true ↔
      (t.reusable_AbstractType_handle_scope_active_ = true ∨
       t.reusable_Array_handle_scope_active_ = true ∨
       t.reusable_Class_handle_scope_active_ = true ∨
       t.reusable_Code_handle_scope_active_ = true ∨
       t.reusable_Error_handle_scope_active_ = true ∨
       t.reusable_ExceptionHandlers_handle_scope_active_ = true ∨
       t.reusable_Field_handle_scope_active_ = true ∨
       t.reusable_Function_handle_scope_active_ = true ∨
       t.reusable_GrowableObjectArray_handle_scope_active_ = true ∨
       t.reusable_Instance_handle_scope_active_ = true ∨
       t.reusable_Library_handle_scope_active_ = true ∨
       t.reusable_Object_handle_scope_active_ = true ∨
       t.reusable_PcDescriptors_handle_scope_active_ = true ∨
       t.reusable_String_handle_scope_active_ = true ∨
       t.reusable_TypeArguments_handle_scope_active_ = true ∨
       t.reusable_TypeParameter_handle_scope_active_ = true) := by
  unfold Thread.IsAnyReusableHandleScopeActive
  simp only [if_return_true_eq_or, Bool.or_false, Bool.or_eq_true]

/-- C4: after `ClearReusableHandles()` returns, every pooled reusable handle
of the `Thread` — one per kind of the reusable-handle list — holds an
empty/null reference. -/
theorem ClearReusableHandles_empties_every_handle (t : Thread) :
    (t.ClearReusableHandles).AbstractType_handle_ = 0 ∧
    (t.ClearReusableHandles).Array_handle_ = 0 ∧
    (t.ClearReusableHandles).Class_handle_ = 0 ∧
    (t.ClearReusableHandles).Code_handle_ = 0 ∧
    (t.ClearReusableHandles).Error_handle_ = 0 ∧
    (t.ClearReusableHandles).ExceptionHandlers_handle_ = 0 ∧
    (t.ClearReusableHandles).Field_handle_ = 0 ∧
    (t.ClearReusableHandles).Function_handle_ = 0 ∧
    (t.ClearReusableHandles).GrowableObjectArray_handle_ = 0 ∧
    (t.ClearReusableHandles).Instance_handle_ = 0 ∧
    (t.ClearReusableHandles).Library_handle_ = 0 ∧
    (t.ClearReusableHandles).Object_handle_ = 0 ∧
    (t.ClearReusableHandles).PcDescriptors_handle_ = 0 ∧
    (t.ClearReusableHandles).String_handle_ = 0 ∧
    (t.ClearReusableHandles).TypeArguments_handle_ = 0 ∧
    (t.ClearReusableHandles).TypeParameter_handle_ = 0 := by
  repeat' apply And.intro
  all_goals rfl

/-- C8: `ClearState()` zeroes every field of the `IsolateScopedState` record
(`state_`), the debug-only fields included, and leaves every `Thread` field
outside that record unchanged. -/
theorem ClearState_zeroes_state_and_nothing_else (t : Thread) :
    (t.ClearState).state_.zone = 0 ∧
    (t.ClearState).state_.top_exit_frame_info = 0 ∧
    (t.ClearState).state_.top_resource = 0 ∧
    (t.ClearState).state_.timeline_block = 0 ∧
    (t.ClearState).state_.long_jump_base = 0 ∧
    (t.ClearState).state_.top_handle_scope = 0 ∧
    (t.ClearState).state_.no_handle_scope_depth = 0 ∧
    (t.ClearState).state_.no_safepoint_scope_depth = 0 ∧
    (t.ClearState).id_ = t.id_ ∧
    (t.ClearState).thread_interrupt_callback_ = t.thread_interrupt_callback_ ∧
    (t.ClearState).thread_interrupt_data_ = t.thread_interrupt_data_ ∧
    (t.ClearState).isolate_ = t.isolate_ ∧
    (t.ClearState).heap_ = t.heap_ ∧
    (t.ClearState).timeline_block_lock_ = t.timeline_block_lock_ ∧
    (t.ClearState).store_buffer_block_ = t.store_buffer_block_ ∧
    (t.ClearState).log_ = t.log_ ∧
    (t.ClearState).vm_tag_ = t.vm_tag_ ∧
    (t.ClearState).object_null_ = t.object_null_ ∧
    (t.ClearState).bool_true_ = t.bool_true_ ∧
    (t.ClearState).bool_false_ = t.bool_false_ ∧
    (t.ClearState).update_store_buffer_code_ = t.update_store_buffer_code_ ∧
    (t.ClearState).fix_callers_target_code_ = t.fix_callers_target_code_ ∧
    (t.ClearState).fix_allocation_stub_code_ = t.fix_allocation_stub_code_ ∧
    (t.ClearState).invoke_dart_code_stub_ = t.invoke_dart_code_stub_ ∧
    (t.ClearState).update_store_buffer_entry_point_ = t.update_store_buffer_entry_point_ ∧
    (t.ClearState).native_call_wrapper_entry_point_ = t.native_call_wrapper_entry_point_ ∧
    (t.ClearState).predefined_symbols_address_ = t.predefined_symbols_address_ ∧
    (t.ClearState).runtime_entry_points_ = t.runtime_entry_points_ ∧
    (t.ClearState).AbstractType_handle_ = t.AbstractType_handle_ ∧
    (t.ClearState).Array_handle_ = t.Array_handle_ ∧
    (t.ClearState).Class_handle_ = t.Class_handle_ ∧
    (t.ClearState).Code_handle_ = t.Code_handle_ ∧
    (t.ClearState).Error_handle_ = t.Error_handle_ ∧
    (t.ClearState).ExceptionHandlers_handle_ = t.ExceptionHandlers_handle_ ∧
    (t.ClearState).Field_handle_ = t.Field_handle_ ∧
    (t.ClearState).Function_handle_ = t.Function_handle_ ∧
    (t.ClearState).GrowableObjectArray_handle_ = t.GrowableObjectArray_handle_ ∧
    (t.ClearState).Instance_handle_ = t.Instance_handle_ ∧
    (t.ClearState).Library_handle_ = t.Library_handle_ ∧
    (t.ClearState).Object_handle_ = t.Object_handle_ ∧
    (t.ClearState).PcDescriptors_handle_ = t.PcDescriptors_handle_ ∧
    (t.ClearState).String_handle_ = t.String_handle_ ∧
    (t.ClearState).TypeArguments_handle_ = t.TypeArguments_handle_ ∧
    (t.ClearState).TypeParameter_handle_ = t.TypeParameter_handle_ ∧
    (t.ClearState).reusable_AbstractType_handle_scope_active_ = t.reusable_AbstractType_handle_scope_active_ ∧
    (t.ClearState).reusable_Array_handle_scope_active_ = t.reusable_Array_handle_scope_active_ ∧
    (t.ClearState).reusable_Class_handle_scope_active_ = t.reusable_Class_handle_scope_active_ ∧
    (t.ClearState).reusable_Code_handle_scope_active_ = t.reusable_Code_handle_scope_active_ ∧
    (t.ClearState).reusable_Error_handle_scope_active_ = t.reusable_Error_handle_scope_active_ ∧
    (t.ClearState).reusable_ExceptionHandlers_handle_scope_active_ = t.reusable_ExceptionHandlers_handle_scope_active_ ∧
    (t.ClearState).reusable_Field_handle_scope_active_ = t.reusable_Field_handle_scope_active_ ∧
    (t.ClearState).reusable_Function_handle_scope_active_ = t.reusable_Function_handle_scope_active_ ∧
    (t.ClearState).reusable_GrowableObjectArray_handle_scope_active_ = t.reusable_GrowableObjectArray_handle_scope_active_ ∧
    (t.ClearState).reusable_Instance_handle_scope_active_ = t.reusable_Instance_handle_scope_active_ ∧
    (t.ClearState).reusable_Library_handle_scope_active_ = t.reusable_Library_handle_scope_active_ ∧
    (t.ClearState).reusable_Object_handle_scope_active_ = t.reusable_Object_handle_scope_active_ ∧
    (t.ClearState).reusable_PcDescriptors_handle_scope_active_ = t.reusable_PcDescriptors_handle_scope_active_ ∧
    (t.ClearState).reusable_String_handle_scope_active_ = t.reusable_String_handle_scope_active_ ∧
    (t.ClearState).reusable_TypeArguments_handle_scope_active_ = t.reusable_TypeArguments_handle_scope_active_ ∧
    (t.ClearState).reusable_TypeParameter_handle_scope_active_ = t.reusable_TypeParameter_handle_scope_active_ ∧
    (t.ClearState).reusable_handles_ = t.reusable_handles_ := by
  repeat' apply And.intro
  all_goals rfl

/-- Helper for C1: a successful run from an unattached state never reaches
the helper state and keeps the enter/exit balance
`countEnters + attachedBal start = countExits + attachedBal final`. -/
theorem runIsolateOps_balance (ops : List IsolateOp) :
    ∀ s s', s ≠ ExecState.AttachedAsHelper →
      runIsolateOps s ops = some s' →
      s' ≠ ExecState.AttachedAsHelper ∧
      countEnters ops + attachedBal s = countExits ops + attachedBal s' := by
  induction ops with
  | nil =>
    intro s s' hs h
    injection h with h2
    subst h2
    exact ⟨hs, rfl⟩
  | cons op rest ih =>
    intro s s' hs h
    cases s with
    | AttachedAsHelper => exact absurd rfl hs
    | Detached =>
      cases op with
      | enterIsolate =>
        have h' : runIsolateOps ExecState.AttachedAsMutator rest = some s' := h
        obtain ⟨h1, h2⟩ := ih _ _ (by decide) h'
        refine ⟨h1, ?_⟩
        simp only [countEnters, countExits, attachedBal] at h2 ⊢
        omega
      | exitIsolate => exact Option.noConfusion h
    | AttachedAsMutator =>
      cases op with
      | enterIsolate => exact Option.noConfusion h
      | exitIsolate =>
        have h' : runIsolateOps ExecState.Detached rest = some s' := h
        obtain ⟨h1, h2⟩ := ih _ _ (by decide) h'
        refine ⟨h1, ?_⟩
        simp only [countEnters, countExits, attachedBal] at h2 ⊢
        omega

/-- C1: over every sequence of `EnterIsolate`/`ExitIsolate` calls on one
context, the context is `AttachedAsMutator` only strictly between a
successful `EnterIsolate` and its matching `ExitIsolate` (a successful
trace from `Detached` ends attached iff it holds one unmatched enter), and
`EnterIsolate` while attached or `ExitIsolate` while detached fails the
contract check. -/
theorem enter_exit_mutator_protocol :
    (isolateStep ExecState.AttachedAsMutator IsolateOp.enterIsolate = none) ∧
    (isolateStep ExecState.AttachedAsHelper IsolateOp.enterIsolate = none) ∧
    (isolateStep ExecState.Detached IsolateOp.exitIsolate = none) ∧
    (∀ (ops : List IsolateOp) (s : ExecState),
      runIsolateOps ExecState.Detached ops = some s →
      (s = ExecState.AttachedAsMutator ↔ countEnters ops = countExits ops + 1)) := by
  refine ⟨rfl, rfl, rfl, ?_⟩
  intro ops s h
  obtain ⟨hna, hbal⟩ := runIsolateOps_balance ops ExecState.Detached s (by decide) h
  constructor
  · intro hs
    subst hs
    simp only [attachedBal] at hbal
    omega
  · intro hc
    cases s with
    | Detached =>
      exfalso
      simp only [attachedBal] at hbal
      omega
    | AttachedAsMutator => rfl
    | AttachedAsHelper => exact absurd rfl hna

/-- Witness for C1 at the concrete trace `[EnterIsolate]`. -/
theorem enter_exit_mutator_protocol_witness :
    runIsolateOps ExecState.Detached [IsolateOp.enterIsolate] =
      some ExecState.AttachedAsMutator ∧
    (ExecState.AttachedAsMutator = ExecState.AttachedAsMutator ↔
      countEnters [IsolateOp.enterIsolate] = countExits [IsolateOp.enterIsolate] + 1) :=
  ⟨rfl, enter_exit_mutator_protocol.2.2.2 [IsolateOp.enterIsolate]
    ExecState.AttachedAsMutator rfl⟩

/-- Helper: a successful `IncrementNoHandleScopeDepth` records that its
`ASSERT` held, bumps exactly the handle-scope counter, and keeps the
safepoint counter and thread id. -/
theorem incHandle_some (t t' : Thread)
    (h : t.IncrementNoHandleScopeDepth = some t') :
    t.state_.no_handle_scope_depth < INT_MAX ∧
    t'.state_.no_handle_scope_depth = t.state_.no_handle_scope_depth + 1 ∧
    t'.state_.no_safepoint_scope_depth = t.state_.no_safepoint_scope_depth ∧
    t'.id_ = t.id_ := by
  unfold Thread.IncrementNoHandleScopeDepth at h
  split at h
  next hlt =>
    injection h with h2
    subst h2
    exact ⟨hlt, rfl, rfl, rfl⟩
  next => exact Option.noConfusion h

/-- Helper: a successful `DecrementNoHandleScopeDepth` records that its
`ASSERT` held and lowers exactly the handle-scope counter. -/
theorem decHandle_some (t t' : Thread)
    (h : t.DecrementNoHandleScopeDepth = some t') :
    0 < t.state_.no_handle_scope_depth ∧
    t'.state_.no_handle_scope_depth = t.state_.no_handle_scope_depth - 1 ∧
    t'.state_.no_safepoint_scope_depth = t.state_.no_safepoint_scope_depth ∧
    t'.id_ = t.id_ := by
  unfold Thread.DecrementNoHandleScopeDepth at h
  split at h
  next hgt =>
    injection h with h2
    subst h2
    exact ⟨hgt, rfl, rfl, rfl⟩
  next => exact Option.noConfusion h

/-- Helper: a successful `IncrementNoSafepointScopeDepth` records that its
`ASSERT` held and bumps exactly the safepoint counter. -/
theorem incSafepoint_some (t t' : Thread)
    (h : t.IncrementNoSafepointScopeDepth = some t') :
    t.state_.no_safepoint_scope_depth < INT_MAX ∧
    t'.state_.no_safepoint_scope_depth = t.state_.no_safepoint_scope_depth + 1 ∧
    t'.state_.no_handle_scope_depth = t.state_.no_handle_scope_depth ∧
    t'.id_ = t.id_ := by
  unfold Thread.IncrementNoSafepointScopeDepth at h
  split at h
  next hlt =>
    injection h with h2
    subst h2
    exact ⟨hlt, rfl, rfl, rfl⟩
  next => exact Option.noConfusion h

/-- Helper: a successful `DecrementNoSafepointScopeDepth` records that its
`ASSERT` held and lowers exactly the safepoint counter. -/
theorem decSafepoint_some (t t' : Thread)
    (h : t.DecrementNoSafepointScopeDepth = some t') :
    0 < t.state_.no_safepoint_scope_depth ∧
    t'.state_.no_safepoint_scope_depth = t.state_.no_safepoint_scope_depth - 1 ∧
    t'.state_.no_handle_scope_depth = t.state_.no_handle_scope_depth ∧
    t'.id_ = t.id_ := by
  unfold Thread.DecrementNoSafepointScopeDepth at h
  split at h
  next hgt =>
    injection h with h2
    subst h2
    exact ⟨hgt, rfl, rfl, rfl⟩
  next => exact Option.noConfusion h

/-- Helper for C6: over any successful sequence of depth-counter calls each
counter moves by its increments minus its decrements and stays within
`[0, INT_MAX]` when it starts there. -/
theorem runDepthOps_spec (ops : List DepthOp) :
    ∀ t t', runDepthOps t ops = some t' →
      t'.state_.no_handle_scope_depth =
        t.state_.no_handle_scope_depth + countIncHandle ops - countDecHandle ops ∧
      t'.state_.no_safepoint_scope_depth =
        t.state_.no_safepoint_scope_depth + countIncSafepoint ops - countDecSafepoint ops ∧
      (0 ≤ t.state_.no_handle_scope_depth → 0 ≤ t'.state_.no_handle_scope_depth) ∧
      (t.state_.no_handle_scope_depth ≤ INT_MAX →
        t'.state_.no_handle_scope_depth ≤ INT_MAX) ∧
      (0 ≤ t.state_.no_safepoint_scope_depth → 0 ≤ t'.state_.no_safepoint_scope_depth) ∧
      (t.state_.no_safepoint_scope_depth ≤ INT_MAX →
        t'.state_.no_safepoint_scope_depth ≤ INT_MAX) := by
  induction ops with
  | nil =>
    intro t t' h
    injection h with h2
    subst h2
    simp [countIncHandle, countDecHandle, countIncSafepoint, countDecSafepoint]
  | cons op rest ih =>
    intro t t' h
    have hu : runDepthOps t (op :: rest) =
        (match applyDepthOp t op with
         | none => none
         | some t1 => runDepthOps t1 rest) := rfl
    cases hstep : applyDepthOp t op with
    | none =>
      rw [hu, hstep] at h
      exact Option.noConfusion h
    | some t1 =>
      rw [hu, hstep] at h
      obtain ⟨e1, e2, b1, b2, b3, b4⟩ := ih t1 t' h
      cases op with
      | incHandle =>
        obtain ⟨hc, s1, s2, _⟩ := incHandle_some t t1 hstep
        simp only [countIncHandle, countDecHandle, countIncSafepoint, countDecSafepoint]
        exact ⟨by omega, by omega, fun h0 => b1 (by omega), fun h0 => b2 (by omega),
          fun h0 => b3 (by omega), fun h0 => b4 (by omega)⟩
      | decHandle =>
        obtain ⟨hc, s1, s2, _⟩ := decHandle_some t t1 hstep
        simp only [countIncHandle, countDecHandle, countIncSafepoint, countDecSafepoint]
        exact ⟨by omega, by omega, fun h0 => b1 (by omega), fun h0 => b2 (by omega),
          fun h0 => b3 (by omega), fun h0 => b4 (by omega)⟩
      | incSafepoint =>
        obtain ⟨hc, s1, s2, _⟩ := incSafepoint_some t t1 hstep
        simp only [countIncHandle, countDecHandle, countIncSafepoint, countDecSafepoint]
        exact ⟨by omega, by omega, fun h0 => b1 (by omega), fun h0 => b2 (by omega),
          fun h0 => b3 (by omega), fun h0 => b4 (by omega)⟩
      | decSafepoint =>
        obtain ⟨hc, s1, s2, _⟩ := decSafepoint_some t t1 hstep
        simp only [countIncHandle, countDecHandle, countIncSafepoint, countDecSafepoint]
        exact ⟨by omega, by omega, fun h0 => b1 (by omega), fun h0 => b2 (by omega),
          fun h0 => b3 (by omega), fun h0 => b4 (by omega)⟩

/-- C6: in debug builds the no-handle-scope and no-safepoint-scope nesting
counters stay within `[0, INT_MAX]` and equal increments minus decrements
over every successful call sequence from a zero start; decrementing at `0`
or incrementing at `INT_MAX` fails the internal `ASSERT`; otherwise the
targeted counter changes by exactly one and the other is untouched. -/
theorem debug_depth_counters_contract :
    (∀ t : Thread, t.state_.no_handle_scope_depth = INT_MAX →
      t.IncrementNoHandleScopeDepth = none) ∧
    (∀ t : Thread, t.state_.no_handle_scope_depth = 0 →
      t.DecrementNoHandleScopeDepth = none) ∧
    (∀ t : Thread, t.state_.no_safepoint_scope_depth = INT_MAX →
      t.IncrementNoSafepointScopeDepth = none) ∧
    (∀ t : Thread, t.state_.no_safepoint_scope_depth = 0 →
      t.DecrementNoSafepointScopeDepth = none) ∧
    (∀ t : Thread, t.state_.no_handle_scope_depth < INT_MAX →
      ∃ t', t.IncrementNoHandleScopeDepth = some t' ∧
        t'.state_.no_handle_scope_depth = t.state_.no_handle_scope_depth + 1 ∧
        t'.state_.no_safepoint_scope_depth = t.state_.no_safepoint_scope_depth) ∧
    (∀ t : Thread, 0 < t.state_.no_handle_scope_depth →
      ∃ t', t.DecrementNoHandleScopeDepth = some t' ∧
        t'.state_.no_handle_scope_depth = t.state_.no_handle_scope_depth - 1 ∧
        t'.state_.no_safepoint_scope_depth = t.state_.no_safepoint_scope_depth) ∧
    (∀ t : Thread, t.state_.no_safepoint_scope_depth < INT_MAX →
      ∃ t', t.IncrementNoSafepointScopeDepth = some t' ∧
        t'.state_.no_safepoint_scope_depth = t.state_.no_safepoint_scope_depth + 1 ∧
        t'.state_.no_handle_scope_depth = t.state_.no_handle_scope_depth) ∧
    (∀ t : Thread, 0 < t.state_.no_safepoint_scope_depth →
      ∃ t', t.DecrementNoSafepointScopeDepth = some t' ∧
        t'.state_.no_safepoint_scope_depth = t.state_.no_safepoint_scope_depth - 1 ∧
        t'.state_.no_handle_scope_depth = t.state_.no_handle_scope_depth) ∧
    (∀ (t : Thread) (ops : List DepthOp) (t' : Thread),
      t.state_.no_handle_scope_depth = 0 →
      t.state_.no_safepoint_scope_depth = 0 →
      runDepthOps t ops = some t' →
      t'.state_.no_handle_scope_depth =
        (countIncHandle ops : Int) - countDecHandle ops ∧
      t'.state_.no_safepoint_scope_depth =
        (countIncSafepoint ops : Int) - countDecSafepoint ops ∧
      0 ≤ t'.state_.no_handle_scope_depth ∧
      t'.state_.no_handle_scope_depth ≤ INT_MAX ∧
      0 ≤ t'.state_.no_safepoint_scope_depth ∧
      t'.state_.no_safepoint_scope_depth ≤ INT_MAX) := by
  refine ⟨?_, ?_, ?_, ?_, ?_, ?_, ?_, ?_, ?_⟩
  · intro t h
    simp [Thread.IncrementNoHandleScopeDepth, h]
  · intro t h
    simp [Thread.DecrementNoHandleScopeDepth, h]
  · intro t h
    simp [Thread.IncrementNoSafepointScopeDepth, h]
  · intro t h
    simp [Thread.DecrementNoSafepointScopeDepth, h]
  · intro t h
    refine ⟨{ t with state_ :=
      { t.state_ with no_handle_scope_depth := t.state_.no_handle_scope_depth + 1 } },
      ?_, rfl, rfl⟩
    unfold Thread.IncrementNoHandleScopeDepth
    rw [if_pos h]
  · intro t h
    refine ⟨{ t with state_ :=
      { t.state_ with no_handle_scope_depth := t.state_.no_handle_scope_depth - 1 } },
      ?_, rfl, rfl⟩
    unfold Thread.DecrementNoHandleScopeDepth
    rw [if_pos h]
  · intro t h
    refine ⟨{ t with state_ :=
      { t.state_ with no_safepoint_scope_depth := t.state_.no_safepoint_scope_depth + 1 } },
      ?_, rfl, rfl⟩
    unfold Thread.IncrementNoSafepointScopeDepth
    rw [if_pos h]
  · intro t h
    refine ⟨{ t with state_ :=
      { t.state_ with no_safepoint_scope_depth := t.state_.no_safepoint_scope_depth - 1 } },
      ?_, rfl, rfl⟩
    unfold Thread.DecrementNoSafepointScopeDepth
    rw [if_pos h]
  · intro t ops t' h0 hs0 hrun
    obtain ⟨e1, e2, b1, b2, b3, b4⟩ := runDepthOps_spec ops t t' hrun
    have hM : (0 : Int) ≤ INT_MAX := by decide
    refine ⟨by omega, by omega, b1 (by omega), b2 (by omega), b3 (by omega), b4 (by omega)⟩

/-- Witness for C6 at the concrete run `[Increment, Decrement]` from a
zeroed state. -/
theorem debug_depth_counters_contract_witness :
    (Thread.ClearState sampleThread).state_.no_handle_scope_depth = 0 ∧
    (Thread.ClearState sampleThread).state_.no_safepoint_scope_depth = 0 ∧
    runDepthOps (Thread.ClearState sampleThread)
      [DepthOp.incHandle, DepthOp.decHandle] = some (Thread.ClearState sampleThread) ∧
    (Thread.ClearState sampleThread).state_.no_handle_scope_depth =
      (countIncHandle [DepthOp.incHandle, DepthOp.decHandle] : Int) -
        countDecHandle [DepthOp.incHandle, DepthOp.decHandle] ∧
    0 ≤ (Thread.ClearState sampleThread).state_.no_handle_scope_depth := by
  have hrun : runDepthOps (Thread.ClearState sampleThread)
      [DepthOp.incHandle, DepthOp.decHandle] = some (Thread.ClearState sampleThread) := by
    decide
  have hmain := debug_depth_counters_contract.2.2.2.2.2.2.2.2
    (Thread.ClearState sampleThread) [DepthOp.incHandle, DepthOp.decHandle]
    (Thread.ClearState sampleThread) rfl rfl hrun
  exact ⟨rfl, rfl, hrun, hmain.1, hmain.2.2.1⟩

/-- Helper: membership in the record set after one insertion. -/
theorem mem_recordSetInsert (records : List Nat) (obj a : Nat) :
    a ∈ recordSetInsert records obj ↔ a ∈ records ∨ a = obj := by
  unfold recordSetInsert
  split
  next hmem =>
    constructor
    · exact Or.inl
    · rintro (h | rfl)
      · exact h
      · exact hmem
  next hmem =>
    simp [List.mem_append]

/-- Helper: inserting into a duplicate-free record set keeps it
duplicate-free. -/
theorem nodup_recordSetInsert (records : List Nat) (obj : Nat)
    (h : records.Nodup) : (recordSetInsert records obj).Nodup := by
  unfold recordSetInsert
  split
  next => exact h
  next hmem =>
    refine List.Nodup.append h (List.nodup_singleton obj) ?_
    intro a ha hb
    rw [List.mem_singleton] at hb
    subst hb
    exact hmem ha

/-- Helper: membership in the record set after inserting a whole block. -/
theorem mem_foldl_recordSetInsert (block : List Nat) :
    ∀ (records : List Nat) (a : Nat),
      a ∈ block.foldl recordSetInsert records ↔ a ∈ records ∨ a ∈ block := by
  induction block with
  | nil =>
    intro records a
    simp
  | cons x rest ih =>
    intro records a
    have h1 : (x :: rest).foldl recordSetInsert records
        = rest.foldl recordSetInsert (recordSetInsert records x) := rfl
    rw [h1, ih, mem_recordSetInsert, List.mem_cons]
    tauto

/-- Helper: inserting a whole block into a duplicate-free record set keeps
it duplicate-free. -/
theorem nodup_foldl_recordSetInsert (block : List Nat) :
    ∀ records : List Nat, records.Nodup →
      (block.foldl recordSetInsert records).Nodup := by
  induction block with
  | nil => intro records h; exact h
  | cons x rest ih =>
    intro records h
    exact ih _ (nodup_recordSetInsert records x h)

/-- Helper: flushing neither loses nor invents pending references. -/
theorem sbHolds_flush (s : Thread × Isolate) (o : Nat) :
    sbHolds (storeBufferFlush s) o ↔ sbHolds s o := by
  obtain ⟨t, iso⟩ := s
  simp only [sbHolds, storeBufferFlush]
  rw [mem_foldl_recordSetInsert]
  simp

/-- Helper: processing under any threshold policy neither loses nor invents
pending references. -/
theorem sbHolds_process (p : ThresholdPolicy) (s : Thread × Isolate) (o : Nat) :
    sbHolds (StoreBufferBlockProcess p s) o ↔ sbHolds s o := by
  cases p with
  | kIgnoreThreshold => exact sbHolds_flush s o
  | kCheckThreshold =>
    simp only [StoreBufferBlockProcess]
    split
    · exact sbHolds_flush s o
    · exact Iff.rfl

/-- Helper: one `StoreBufferAddObject` call makes exactly the added
reference pending. -/
theorem sbHolds_add (obj : Nat) (s : Thread × Isolate) (o : Nat) :
    sbHolds (StoreBufferAddObject obj s) o ↔ sbHolds s o ∨ o = obj := by
  obtain ⟨t, iso⟩ := s
  unfold StoreBufferAddObject
  rw [sbHolds_process]
  simp only [sbHolds, List.mem_append, List.mem_singleton]
  tauto

/-- Helper: after a sequence of adds, the pending references are the ones
pending before plus exactly the added ones. -/
theorem sbHolds_run (objs : List Nat) :
    ∀ (s : Thread × Isolate) (o : Nat),
      sbHolds (runStoreBufferAdds s objs) o ↔ sbHolds s o ∨ o ∈ objs := by
  induction objs with
  | nil =>
    intro s o
    simp [runStoreBufferAdds]
  | cons x rest ih =>
    intro s o
    have h1 : runStoreBufferAdds s (x :: rest) =
        runStoreBufferAdds (StoreBufferAddObject x s) rest := rfl
    rw [h1, ih, sbHolds_add, List.mem_cons]
    tauto

/-- Helper: flushing keeps the record set duplicate-free. -/
theorem records_nodup_flush (s : Thread × Isolate)
    (h : s.2.store_buffer_records_.Nodup) :
    (storeBufferFlush s).2.store_buffer_records_.Nodup := by
  obtain ⟨t, iso⟩ := s
  exact nodup_foldl_recordSetInsert _ _ h

/-- Helper: processing keeps the record set duplicate-free. -/
theorem records_nodup_process (p : ThresholdPolicy) (s : Thread × Isolate)
    (h : s.2.store_buffer_records_.Nodup) :
    (StoreBufferBlockProcess p s).2.store_buffer_records_.Nodup := by
  cases p with
  | kIgnoreThreshold => exact records_nodup_flush s h
  | kCheckThreshold =>
    simp only [StoreBufferBlockProcess]
    split
    · exact records_nodup_flush s h
    · exact h

/-- Helper: adding keeps the record set duplicate-free. -/
theorem records_nodup_add (obj : Nat) (s : Thread × Isolate)
    (h : s.2.store_buffer_records_.Nodup) :
    (StoreBufferAddObject obj s).2.store_buffer_records_.Nodup := by
  unfold StoreBufferAddObject
  exact records_nodup_process _ _ h

/-- Helper: a sequence of adds keeps the record set duplicate-free. -/
theorem records_nodup_run (objs : List Nat) :
    ∀ s : Thread × Isolate, s.2.store_buffer_records_.Nodup →
      (runStoreBufferAdds s objs).2.store_buffer_records_.Nodup := by
  induction objs with
  | nil => intro s h; exact h
  | cons x rest ih =>
    intro s h
    exact ih _ (records_nodup_add x s h)

/-- Helper: an unconditional flush leaves the thread-local block empty. -/
theorem process_ignore_block_empty (s : Thread × Isolate) :
    (StoreBufferBlockProcess ThresholdPolicy.kIgnoreThreshold
      s).1.store_buffer_block_ = [] := by
  obtain ⟨t, iso⟩ := s
  rfl

/-- C2: for any sequence of `StoreBufferAddObject` calls on a thread with an
empty local block and an empty isolate-global record set, followed by a
flush (`StoreBufferBlockProcess`), every added reference appears exactly
once in the isolate-global record set and the thread-local store buffer
block is empty. -/
theorem store_buffer_adds_then_flush (t : Thread) (iso : Isolate) (objs : List Nat)
    (hblock : t.store_buffer_block_ = [])
    (hrecords : iso.store_buffer_records_ = []) :
    (StoreBufferBlockProcess ThresholdPolicy.kIgnoreThreshold
      (runStoreBufferAdds (t, iso) objs)).1.store_buffer_block_ = [] ∧
    ∀ o ∈ objs,
      (StoreBufferBlockProcess ThresholdPolicy.kIgnoreThreshold
        (runStoreBufferAdds (t, iso) objs)).2.store_buffer_records_.count o = 1 := by
  refine ⟨process_ignore_block_empty _, ?_⟩
  intro o ho
  have hnodup : (StoreBufferBlockProcess ThresholdPolicy.kIgnoreThreshold
      (runStoreBufferAdds (t, iso) objs)).2.store_buffer_records_.Nodup := by
    refine records_nodup_process _ _ (records_nodup_run objs _ ?_)
    rw [hrecords]
    exact List.nodup_nil
  have hpending : sbHolds (StoreBufferBlockProcess ThresholdPolicy.kIgnoreThreshold
      (runStoreBufferAdds (t, iso) objs)) o := by
    rw [sbHolds_process, sbHolds_run]
    exact Or.inr ho
  have hmem : o ∈ (StoreBufferBlockProcess ThresholdPolicy.kIgnoreThreshold
      (runStoreBufferAdds (t, iso) objs)).2.store_buffer_records_ := by
    rcases hpending with h | h
    · exact h
    · rw [process_ignore_block_empty _] at h
      exact absurd h (List.not_mem_nil o)
  exact List.count_eq_one_of_mem hnodup hmem

/-- Witness for C2 at concrete adds containing a duplicate (`41` is added
twice) from empty buffers. -/
theorem store_buffer_adds_then_flush_witness :
    ({ sampleThread with store_buffer_block_ := [] } : Thread).store_buffer_block_ = [] ∧
    (Isolate.mk []).store_buffer_records_ = [] ∧
    (StoreBufferBlockProcess ThresholdPolicy.kIgnoreThreshold
      (runStoreBufferAdds ({ sampleThread with store_buffer_block_ := [] }, Isolate.mk [])
        [41, 42, 41, 43])).1.store_buffer_block_ = [] ∧
    (StoreBufferBlockProcess ThresholdPolicy.kIgnoreThreshold
      (runStoreBufferAdds ({ sampleThread with store_buffer_block_ := [] }, Isolate.mk [])
        [41, 42, 41, 43])).2.store_buffer_records_.count 41 = 1 := by
  have hmain := store_buffer_adds_then_flush
    { sampleThread with store_buffer_block_ := [] } (Isolate.mk [])
    [41, 42, 41, 43] rfl rfl
  exact ⟨rfl, rfl, hmain.1, hmain.2 41 (by decide)⟩

/-- C3: every static offset accessor of `Thread` is deterministic and
stable for the process lifetime: evaluated at any two points of one run it
returns the same value — for the named field accessors, every
cached-constant accessor, and every runtime-entry accessor. -/
theorem offset_accessors_stable :
    (∀ w₁ w₂ : Nat, isolate_offset w₁ = isolate_offset w₂) ∧
    (∀ w₁ w₂ : Nat, store_buffer_block_offset w₁ = store_buffer_block_offset w₂) ∧
    (∀ w₁ w₂ : Nat, top_exit_frame_info_offset w₁ = top_exit_frame_info_offset w₂) ∧
    (∀ w₁ w₂ : Nat, top_resource_offset w₁ = top_resource_offset w₂) ∧
    (∀ w₁ w₂ : Nat, heap_offset w₁ = heap_offset w₂) ∧
    (∀ w₁ w₂ : Nat, vm_tag_offset w₁ = vm_tag_offset w₂) ∧
    (∀ w₁ w₂ : Nat, object_null_offset w₁ = object_null_offset w₂) ∧
    (∀ w₁ w₂ : Nat, bool_true_offset w₁ = bool_true_offset w₂) ∧
    (∀ w₁ w₂ : Nat, bool_false_offset w₁ = bool_false_offset w₂) ∧
    (∀ w₁ w₂ : Nat, update_store_buffer_code_offset w₁ = update_store_buffer_code_offset w₂) ∧
    (∀ w₁ w₂ : Nat, fix_callers_target_code_offset w₁ = fix_callers_target_code_offset w₂) ∧
    (∀ w₁ w₂ : Nat, fix_allocation_stub_code_offset w₁ = fix_allocation_stub_code_offset w₂) ∧
    (∀ w₁ w₂ : Nat, invoke_dart_code_stub_offset w₁ = invoke_dart_code_stub_offset w₂) ∧
    (∀ w₁ w₂ : Nat,
      update_store_buffer_entry_point_offset w₁ = update_store_buffer_entry_point_offset w₂) ∧
    (∀ w₁ w₂ : Nat,
      native_call_wrapper_entry_point_offset w₁ = native_call_wrapper_entry_point_offset w₂) ∧
    (∀ w₁ w₂ : Nat,
      predefined_symbols_address_offset w₁ = predefined_symbols_address_offset w₂) ∧
    (∀ (n : Nat) (w₁ w₂ : Nat),
      runtime_entry_point_offset n w₁ = runtime_entry_point_offset n w₂) :=
  ⟨fun _ _ => rfl, fun _ _ => rfl, fun _ _ => rfl, fun _ _ => rfl, fun _ _ => rfl,
   fun _ _ => rfl, fun _ _ => rfl, fun _ _ => rfl, fun _ _ => rfl, fun _ _ => rfl,
   fun _ _ => rfl, fun _ _ => rfl, fun _ _ => rfl, fun _ _ => rfl, fun _ _ => rfl,
   fun _ _ => rfl, fun _ _ _ => rfl⟩

/-- Helper: processing the store buffer never changes the thread's stored
id. -/
theorem storeBufferProcess_keeps_id (p : ThresholdPolicy) (s : Thread × Isolate) :
    (StoreBufferBlockProcess p s).1.id_ = s.1.id_ := by
  obtain ⟨t, iso⟩ := s
  cases p with
  | kIgnoreThreshold => rfl
  | kCheckThreshold =>
    simp only [StoreBufferBlockProcess]
    split
    · rfl
    · rfl

/-- Helper for C9: no single embedded `Thread` operation changes the stored
thread id (`const ThreadId id_`). -/
theorem applyThreadOp_id (t : Thread) (op : ThreadOp) (t' : Thread)
    (h : applyThreadOp t op = some t') : t'.id_ = t.id_ := by
  cases op with
  | setVmTag v => injection h with h2; subst h2; rfl
  | setZone v => injection h with h2; subst h2; rfl
  | setTopExitFrameInfo v => injection h with h2; subst h2; rfl
  | setTopResource v => injection h with h2; subst h2; rfl
  | setTimelineBlock v => injection h with h2; subst h2; rfl
  | setLongJumpBase v => injection h with h2; subst h2; rfl
  | setTopHandleScope v => injection h with h2; subst h2; rfl
  | incNoHandleScopeDepth => exact (incHandle_some t t' h).2.2.2
  | decNoHandleScopeDepth => exact (decHandle_some t t' h).2.2.2
  | incNoSafepointScopeDepth => exact (incSafepoint_some t t' h).2.2.2
  | decNoSafepointScopeDepth => exact (decSafepoint_some t t' h).2.2.2
  | clearState => injection h with h2; subst h2; rfl
  | clearReusableHandles => injection h with h2; subst h2; rfl
  | storeBufferAdd obj iso =>
    injection h with h2
    subst h2
    exact storeBufferProcess_keeps_id ThresholdPolicy.kCheckThreshold _

/-- Helper for C9: no successful sequence of embedded `Thread` operations
changes the stored thread id. -/
theorem runThreadOps_id (ops : List ThreadOp) :
    ∀ t t', runThreadOps t ops = some t' → t'.id_ = t.id_ := by
  induction ops with
  | nil =>
    intro t t' h
    injection h with h2
    subst h2
    rfl
  | cons op rest ih =>
    intro t t' h
    have hu : runThreadOps t (op :: rest) =
        (match applyThreadOp t op with
         | none => none
         | some t1 => runThreadOps t1 rest) := rfl
    cases hstep : applyThreadOp t op with
    | none =>
      rw [hu, hstep] at h
      exact Option.noConfusion h
    | some t1 =>
      rw [hu, hstep] at h
      rw [ih t1 t' h, applyThreadOp_id t op t1 hstep]

/-- C9: the thread identity is immutable after construction — no sequence
of embedded operations changes `id_` — and `id()` asserts that the stored
id is not the invalid thread id, returning the stored id exactly when the
precondition holds. -/
theorem thread_id_immutable :
    (∀ (t : Thread) (ops : List ThreadOp) (t' : Thread),
      runThreadOps t ops = some t' → t'.id_ = t.id_) ∧
    (∀ t : Thread, t.id_ ≠ kInvalidThreadId → t.id = some t.id_) ∧
    (∀ t : Thread, t.id_ = kInvalidThreadId → t.id = none) := by
  refine ⟨fun t ops t' h => runThreadOps_id ops t t' h, ?_, ?_⟩
  · intro t h
    unfold Thread.id
    rw [if_neg h]
  · intro t h
    unfold Thread.id
    rw [if_pos h]

/-- Witness for C9 at a concrete one-operation run on the sample thread. -/
theorem thread_id_immutable_witness :
    runThreadOps sampleThread [ThreadOp.setVmTag 5] = some (sampleThread.set_vm_tag 5) ∧
    (sampleThread.set_vm_tag 5).id_ = sampleThread.id_ ∧
    sampleThread.id_ ≠ kInvalidThreadId ∧
    sampleThread.id = some sampleThread.id_ := by
  have h1 : runThreadOps sampleThread [ThreadOp.setVmTag 5] =
      some (sampleThread.set_vm_tag 5) := rfl
  exact ⟨h1, thread_id_immutable.1 sampleThread [ThreadOp.setVmTag 5] _ h1,
    by decide, thread_id_immutable.2.1 sampleThread (by decide)⟩

end DartVM
